import Mathlib

/-!
Verification of the tender-engine retrieval-and-match pipeline.

This file gives a shallow embedding of the core of the repository:
the LLM match-analysis response parsers (`src/llm/azure_recommender_llm.py`
`_parse_analysis_response`, `src/llm/recommender_llm.py` `_parse_llm_response`),
the recommendation orchestration (`recommend_tenders_for_company`,
`get_recommendations`), and the two vector store backends
(`src/vectorstore/chromadb_store.py`, `src/vectorstore/cosmos_vector_store.py`).

External collaborators (the JSON decoder `json.loads`, the embedding provider,
the LLM completion call, the database clients) are modelled as function
parameters or as explicit backend-result values; the control flow, the
string manipulation and the data shaping are translated from the source.
Python floats are modelled as rationals.
-/

namespace TenderEngine

/-- The character `{`, written via its code point. -/
def lbrace : Char := Char.ofNat 123

/-- The character `}`, written via its code point. -/
def rbrace : Char := Char.ofNat 125

/-- The newline character. -/
def nlChar : Char := Char.ofNat 10

/-- Python `str.find` restricted to a single character: index of the first
occurrence, `-1` when absent. -/
def pyFind (cs : List Char) (c : Char) : Int :=
  match cs.findIdx? (· == c) with
  | some i => (i : Int)
  | none => -1

/-- Python `str.rfind` restricted to a single character: index of the last
occurrence, `-1` when absent. -/
def pyRFind (cs : List Char) (c : Char) : Int :=
  match cs.reverse.findIdx? (· == c) with
  | some i => ((cs.length - 1 - i : Nat) : Int)
  | none => -1

/-- Python slice `s[a:b]` for `0 ≤ a ≤ b` (the only regime the sources use). -/
def pySlice (cs : List Char) (a b : Int) : List Char :=
  (cs.take b.toNat).drop a.toNat

/-- Python whitespace recognised by `str.strip()` and `float()`. -/
def isPyWs (c : Char) : Bool :=
  c == ' ' || c == Char.ofNat 9 || c == Char.ofNat 10 || c == Char.ofNat 13 ||
  c == Char.ofNat 11 || c == Char.ofNat 12

/-- Python `str.strip()`: drop whitespace at both ends. -/
def pyStrip (cs : List Char) : List Char :=
  ((cs.dropWhile isPyWs).reverse.dropWhile isPyWs).reverse

/-- Python `str.split(sep)` for a one-character separator: split at every
occurrence, keeping empty pieces (always returns a non-empty list). -/
def pySplitOnChar : List Char → Char → List (List Char)
  | [], _ => [[]]
  | c :: t, sep =>
    let r := pySplitOnChar t sep
    if c == sep then [] :: r
    else
      match r with
      | h :: t2 => (c :: h) :: t2
      | [] => [[c]]

/-- Whether `needle` occurs as a contiguous substring of `hay`
(Python `needle in hay`). -/
def strContainsSub (hay needle : List Char) : Bool :=
  match hay with
  | [] => needle.isEmpty
  | _ :: t => needle.isPrefixOf hay || strContainsSub t needle

/-- Lower-case a character list (Python `str.lower()` on ASCII text). -/
def toLowerList (cs : List Char) : List Char := cs.map Char.toLower

/-- JSON values, the result shape of the external decoder `json.loads`. -/
inductive JsonVal where
  | null : JsonVal
  | bool (b : Bool) : JsonVal
  | num (q : ℚ) : JsonVal
  | str (s : String) : JsonVal
  | arr (xs : List JsonVal) : JsonVal
  | obj (fields : List (String × JsonVal)) : JsonVal
deriving BEq

/-- A decoded JSON object: association list of fields (a Python dict as
returned by `json.loads`, so keys are distinct and lookup is by key). -/
abbrev JsonObj := List (String × JsonVal)

/-- All-digit check used by the float literal parser. -/
def allDigits (ds : List Char) : Bool :=
  !ds.isEmpty && ds.all (fun d => decide (48 ≤ d.toNat ∧ d.toNat ≤ 57))

/-- Numeric value of a digit list. -/
def digitsToNat (ds : List Char) : ℕ :=
  ds.foldl (fun n d => 10 * n + (d.toNat - 48)) 0

/-- The character dot. -/
def dotChar : Char := Char.ofNat 46

/-- Unsigned decimal literal: `digits`, `digits.digits`, `digits.` or
`.digits`. Returns `none` on anything else (Python `ValueError`). -/
def pyFloatUnsigned (cs : List Char) : Option ℚ :=
  let intPart := cs.takeWhile (fun c => c != dotChar)
  let rest := cs.dropWhile (fun c => c != dotChar)
  match rest with
  | [] => if allDigits intPart then some ((digitsToNat intPart : ℚ)) else none
  | _ :: frac =>
    if (allDigits intPart || intPart.isEmpty) && (allDigits frac || frac.isEmpty)
        && !(intPart.isEmpty && frac.isEmpty) then
      some ((digitsToNat intPart : ℚ) + (digitsToNat frac : ℚ) / ((10 : ℚ) ^ frac.length))
    else none

/-- Python `float(s)` on plain decimal literals with optional sign and
surrounding whitespace; `none` models `ValueError`. (Exponent, `inf` and
`nan` forms are outside the fragment the sources feed to `float`.) -/
def pyFloatStr (s : String) : Option ℚ :=
  let cs := pyStrip s.toList
  match cs with
  | c :: rest =>
    if c == '-' then (pyFloatUnsigned rest).map (fun q => -q)
    else if c == '+' then pyFloatUnsigned rest
    else pyFloatUnsigned cs
  | [] => none

/-- Python `float(x)` on a decoded JSON value; `none` models `TypeError` /
`ValueError`. -/
def pyFloatOfVal : JsonVal → Option ℚ
  | .num q => some q
  | .bool b => some (if b then 1 else 0)
  | .str s => pyFloatStr s
  | _ => none

/-! ## Match-analysis response parsers -/

/-- The degraded analysis dictionary built by the fallback path of
`AzureRecommenderLLM._parse_analysis_response`. -/
def fallbackAnalysis (response_text : String) : JsonObj :=
  [("match_score", .num (1/2)),
   ("reasoning", .str response_text),
   ("key_strengths", .arr []),
   ("potential_challenges", .arr []),
   ("recommendation", .str "Analysis available in reasoning field")]

/-- `AzureRecommenderLLM._parse_analysis_response`
(`src/llm/azure_recommender_llm.py`, lines 305-340). The external JSON
decoder `json.loads` is the parameter `loads`; `loads s = none` models
`json.JSONDecodeError`, which the source catches and turns into the
fallback dictionary. A successfully decoded object is returned unchanged
when it carries both required keys, else the fallback is returned. -/
def parse_analysis_response (loads : String → Option JsonObj)
    (response_text : String) : Option JsonObj :=
  let cs := response_text.toList
  let start_idx := pyFind cs lbrace
  let end_idx := pyRFind cs rbrace + 1
  if 0 ≤ start_idx ∧ start_idx < end_idx then
    match loads (String.mk (pySlice cs start_idx end_idx)) with
    | some analysis =>
      if (analysis.lookup "match_score").isSome ∧
          (analysis.lookup "reasoning").isSome then
        some analysis
      else
        some (fallbackAnalysis response_text)
    | none => some (fallbackAnalysis response_text)
  else
    some (fallbackAnalysis response_text)

/-- The dictionary built by `RecommenderLLM._parse_llm_response`:
`match_score` (a Python float) and `reasoning` (whatever value the decoded
dict held, a plain string in the heuristic branch). -/
structure LocalAnalysis where
  match_score : ℚ
  reasoning : JsonVal
deriving BEq

/-- The marker scanned for by the no-JSON branch of
`RecommenderLLM._parse_llm_response`. -/
def matchScoreMarker : List Char := "match score:".toList

/-- The line scan of `RecommenderLLM._parse_llm_response`: the first line
containing `"match score:"` (case-insensitively) whose text after the last
colon parses as a float sets the score; otherwise the score stays `0.0`. -/
def scanMatchScore : List (List Char) → ℚ
  | [] => 0
  | line :: rest =>
    if strContainsSub (toLowerList line) matchScoreMarker then
      match pyFloatStr (String.mk (pyStrip ((pySplitOnChar line ':').getLastD []))) with
      | some v => v
      | none => scanMatchScore rest
    else scanMatchScore rest

/-- `RecommenderLLM._parse_llm_response` (`src/llm/recommender_llm.py`,
lines 167-211). When the response holds both braces, the brace-delimited
substring is decoded; a decode failure or a `float()` failure on the
`match_score` value raises inside the `try`, so the source returns `None`
(here `none`). Without braces, the heuristic line scan supplies the score
and the raw response is the reasoning. -/
def parse_llm_response (loads : String → Option JsonObj)
    (response : String) : Option LocalAnalysis :=
  let cs := response.toList
  if cs.contains lbrace && cs.contains rbrace then
    let json_start := pyFind cs lbrace
    let json_end := pyRFind cs rbrace + 1
    match loads (String.mk (pySlice cs json_start json_end)) with
    | none => none
    | some data =>
      match pyFloatOfVal ((data.lookup "match_score").getD (.num 0)) with
      | none => none
      | some match_score =>
        some { match_score := match_score,
               reasoning := (data.lookup "reasoning").getD (.str "") }
  else
    some { match_score := scanMatchScore (pySplitOnChar cs nlChar),
           reasoning := .str response }

/-- The raw response contains no parseable JSON object: either no
brace-delimited substring exists (the source's index test fails), or the
decoder fails on the extracted substring. -/
def NoParseableJson (loads : String → Option JsonObj) (t : String) : Prop :=
  ¬ (0 ≤ pyFind t.toList lbrace ∧
      pyFind t.toList lbrace < pyRFind t.toList rbrace + 1) ∨
    loads (String.mk (pySlice t.toList (pyFind t.toList lbrace)
      (pyRFind t.toList rbrace + 1))) = none

/-! ## Local recommendation pipeline (src/llm/recommender_llm.py) -/

/-- The tender record fields read by `get_recommendations` and the stores.
A `none` field models an absent dictionary key (or a `None` value, which
the sources treat the same way through `.get` and truthiness). -/
structure TenderDoc where
  tid : Option String := none
  deadline : Option String := none
  estimated_value : Option ℚ := none
deriving BEq

/-- The per-tender deadline test of the `filter_expired` comprehension
(`get_recommendations`, lines 75-78): Python evaluates
`tender.get("deadline") and datetime.fromisoformat(tender["deadline"]) > current_date`,
so an absent or empty deadline short-circuits to dropped, and an
unparsable one raises `ValueError` (`fromiso d = none`). `fromiso` stands
for `datetime.fromisoformat` mapped to an integer timestamp. -/
def keepTender (fromiso : String → Option Int) (now : Int) (t : TenderDoc) :
    Except String Bool :=
  match t.deadline with
  | none => .ok false
  | some d =>
    if d.isEmpty then .ok false
    else
      match fromiso d with
      | none => .error "ValueError: invalid isoformat string"
      | some ts => .ok (decide (now < ts))

/-- The `filter_expired` list comprehension itself, left to right; a raised
`ValueError` aborts the whole comprehension. -/
def filter_expired_tenders (fromiso : String → Option Int) (now : Int) :
    List TenderDoc → Except String (List TenderDoc)
  | [] => .ok []
  | t :: ts => do
    let keep ← keepTender fromiso now t
    let rest ← filter_expired_tenders fromiso now ts
    return (if keep then t :: rest else rest)

/-- The effective keep-predicate of the `filter_expired` step when every
present deadline parses: present, non-empty, parseable and strictly in the
future. -/
def keepPred (fromiso : String → Option Int) (now : Int) (t : TenderDoc) : Bool :=
  match t.deadline with
  | none => false
  | some d =>
    !d.isEmpty &&
      (match fromiso d with
       | some ts => decide (now < ts)
       | none => false)

/-- A recommendation entry of the local pipeline: the tender record merged
with `match_score` and `match_reasoning` (`_generate_recommendations`,
lines 127-131). -/
structure LocalRec where
  tender : TenderDoc
  match_score : ℚ
  match_reasoning : JsonVal := .str ""
deriving BEq

/-- Outcome of one per-candidate LLM call chain: the call may raise, the
parser may return `None`, or an analysis is produced. -/
inductive AnalysisOutcome (α : Type) where
  | raises : AnalysisOutcome α
  | absent : AnalysisOutcome α
  | ok (a : α) : AnalysisOutcome α

/-- `RecommenderLLM._generate_recommendations` (lines 97-137): per-tender
`try`/`except`; a raising call chain is logged and skipped, an absent
parse result is skipped, a successful analysis is merged into the record. -/
def generate_recommendations (analyze : TenderDoc → AnalysisOutcome LocalAnalysis)
    (tenders : List TenderDoc) : List LocalRec :=
  tenders.filterMap (fun t =>
    match analyze t with
    | .ok a => some { tender := t, match_score := a.match_score,
                      match_reasoning := a.reasoning }
    | _ => none)

/-- The sort step of `get_recommendations` (lines 87-92). Sorting by
deadline recomputes `datetime.fromisoformat(x["deadline"])` as the key, so
an absent or unparsable deadline raises there; `list.sort` is stable, and
`reverse=True` keeps ties in original order. -/
def sortRecs (fromiso : String → Option Int) (sort_by : String)
    (recs : List LocalRec) : Except String (List LocalRec) :=
  if sort_by = "Match Score" then
    .ok (recs.mergeSort (fun a b => decide (b.match_score ≤ a.match_score)))
  else if sort_by = "Deadline" then do
    let keyed ← recs.mapM (fun r =>
      match r.tender.deadline with
      | none => Except.error "KeyError: deadline"
      | some d =>
        match fromiso d with
        | none => Except.error "ValueError: invalid isoformat string"
        | some ts => Except.ok (ts, r))
    return ((keyed.mergeSort (fun a b => decide (a.1 ≤ b.1))).map (fun p => p.2))
  else if sort_by = "Value" then
    .ok (recs.mergeSort (fun a b =>
      decide ((b.tender.estimated_value.getD 0) ≤ (a.tender.estimated_value.getD 0))))
  else .ok recs

/-- `RecommenderLLM.get_recommendations` (lines 32-95), with the
collaborator results as parameters: `companies` is the company lookup
result, `tenders` the retrieved tender list, and `gen` stands for
`_generate_recommendations` applied to the surviving tenders. -/
def get_recommendations (fromiso : String → Option Int) (now : Int)
    (companies : List JsonObj) (tenders : List TenderDoc)
    (gen : List TenderDoc → List LocalRec)
    (min_score : ℚ) (max_results : ℕ) (sort_by : String)
    (filter_expired : Bool) : Except String (List LocalRec) := do
  if companies.isEmpty then return []
  if tenders.isEmpty then return []
  let tenders2 ←
    if filter_expired then filter_expired_tenders fromiso now tenders
    else pure tenders
  let recs := gen tenders2
  let recs := recs.filter (fun r => decide (min_score ≤ r.match_score))
  let recs2 ← sortRecs fromiso sort_by recs
  return recs2.take max_results

/-! ## Azure orchestrator (src/llm/azure_recommender_llm.py) -/

/-- A field that the Python code accepts either as a single string or as a
list of strings and normalises with `x if isinstance(x, list) else [x]`. -/
inductive StrOrList where
  | s (v : String)
  | l (vs : List String)
deriving BEq

/-- The normalisation `x if isinstance(x, list) else [x]`. -/
def StrOrList.toListNorm : StrOrList → List String
  | .s v => [v]
  | .l vs => vs

/-- Python truthiness of such a field (empty string and empty list are
falsy). -/
def StrOrList.truthy : StrOrList → Bool
  | .s v => !v.isEmpty
  | .l vs => !vs.isEmpty

/-- The company profile fields read by the query and embedding text
builders; `none` models an absent key. -/
structure CompanyData where
  name : Option String := none
  description : Option String := none
  industry : Option StrOrList := none
  services : Option StrOrList := none
  expertise : Option StrOrList := none
  location : Option String := none
  size : Option String := none
deriving BEq

/-- `AzureRecommenderLLM._create_company_search_query` (lines 189-210):
the space-join of industry, services and expertise (each normalised to a
list) and the location, each added when the key is present, without
labels; name, description and size are never consulted. -/
def create_company_search_query (p : CompanyData) : String :=
  let query_parts :=
    (match p.industry with | some x => x.toListNorm | none => []) ++
    (match p.services with | some x => x.toListNorm | none => []) ++
    (match p.expertise with | some x => x.toListNorm | none => []) ++
    (match p.location with | some loc => [loc] | none => [])
  String.intercalate " " query_parts

/-- A candidate returned by the vector search, as consumed by the
orchestrator; the similarity score key may be absent
(`tender.get('similarity_score', 0)`). -/
structure Candidate where
  cid : String
  similarity_score : Option ℚ := none
deriving BEq

/-- One entry of the list built by `recommend_tenders_for_company`; the
analysis dictionary is abstracted to the `match_score` the orchestrator
reads from it. -/
structure TenderRec where
  tender : Candidate
  match_score : ℚ
  vector_similarity : ℚ
deriving BEq

/-- `AzureRecommenderLLM.recommend_tenders_for_company` (lines 33-83).
`search` stands for `vector_store.search_tenders`, `analyze` for the
per-candidate LLM call `_analyze_tender_match` with its three outcomes.
The source requests `max_recommendations * 2` candidates but loops over
`candidate_tenders[:max_recommendations]`; a raising or absent analysis is
skipped, scores at or below `0.3` are discarded, and `list.sort` with
`key=match_score, reverse=True` is a stable descending sort. -/
def recommend_tenders_for_company (search : String → ℕ → List Candidate)
    (analyze : Candidate → AnalysisOutcome ℚ)
    (company_profile : CompanyData) (max_recommendations : ℕ) : List TenderRec :=
  let search_query := create_company_search_query company_profile
  let candidate_tenders := search search_query (max_recommendations * 2)
  if candidate_tenders.isEmpty then []
  else
    let recommendations := (candidate_tenders.take max_recommendations).filterMap
      (fun tender =>
        match analyze tender with
        | .ok s =>
          if s > 3/10 then
            some { tender := tender, match_score := s,
                   vector_similarity := tender.similarity_score.getD 0 }
          else none
        | _ => none)
    recommendations.mergeSort (fun a b => decide (b.match_score ≤ a.match_score))

/-- Modelled from the words of claim C5, NOT from the source, for the
refinement comparison: retrieve `maxResults * 2` candidates, analyze every
retrieved candidate, discard scores at or below `0.3`, sort descending by
match score with ties broken by vector similarity descending, truncate to
`maxResults`. -/
def recommendTendersSpec (search : String → ℕ → List Candidate)
    (analyze : Candidate → AnalysisOutcome ℚ)
    (company_profile : CompanyData) (maxResults : ℕ) : List TenderRec :=
  let cands := search (create_company_search_query company_profile) (maxResults * 2)
  let recs := cands.filterMap (fun tender =>
    match analyze tender with
    | .ok s =>
      if s > 3/10 then
        some { tender := tender, match_score := s,
               vector_similarity := tender.similarity_score.getD 0 }
      else none
    | _ => none)
  (recs.mergeSort (fun a b =>
    decide (b.match_score < a.match_score ∨
      (b.match_score = a.match_score ∧ b.vector_similarity ≤ a.vector_similarity)))).take
    maxResults

/-! ## ChromaDB store (src/vectorstore/chromadb_store.py) -/

/-- Outcome of one call to the external embedding endpoint. -/
inductive EmbedOutcome where
  | raises : EmbedOutcome
  | ok (v : List ℚ) : EmbedOutcome

/-- `ChromaDBStore._get_embeddings` (lines 85-103): per text, a raising
request and an empty or missing embedding both yield the all-zero vector
of the configured dimension; a non-empty embedding is used as returned. -/
def get_embeddings (provider : String → EmbedOutcome) (dim : ℕ)
    (texts : List String) : List (List ℚ) :=
  texts.map (fun t =>
    match provider t with
    | .ok v => if v.isEmpty then List.replicate dim 0 else v
    | .raises => List.replicate dim 0)

/-- `ChromaDBStore._get_embedding_safe` (lines 105-106). -/
def get_embedding_safe (provider : String → EmbedOutcome) (dim : ℕ)
    (text : String) : List ℚ :=
  (get_embeddings provider dim [text]).getD 0 []

/-- The tender record fields read by the two `add_tender` paths and the
embedding text builder. `none` models an absent key. -/
structure TenderData where
  tid : Option String := none
  title : Option String := none
  description : Option String := none
  organization : Option String := none
  location : Option String := none
  category : Option StrOrList := none
  estimated_value : Option ℚ := none
  source : Option String := none
  deadline : Option String := none
deriving BEq

/-- One stored ChromaDB entry: the embedding vector and the full record
(the source stores `json.dumps(tender_data)`; the dump/load round-trip is
modelled as the identity on the record). -/
structure ChromaEntry where
  embedding : List ℚ
  doc : TenderData
deriving BEq

/-- `Collection.add` of the chromadb >= 0.4 client (the line required by
the `PersistentClient`/`EphemeralClient` API the source uses): adding an
id that is already stored logs a warning and silently skips the record,
keeping the original entry; a new id is appended. No exception is raised
for an existing id. -/
def chroma_collection_add (st : List (String × ChromaEntry)) (id : String)
    (e : ChromaEntry) : List (String × ChromaEntry) :=
  if (st.lookup id).isSome then st else st ++ [(id, e)]

/-- `ChromaDBStore.add_tender` (lines 108-134) on the `embeddings=None`
path with host and model configured: builds `title + " " + description`,
fetches the embedding, and adds. The surrounding `try`/`except` (which
would yield `(unchanged store, False)`) is never reached on this path:
embedding failures are swallowed inside `_get_embeddings`, and the client
does not raise on a duplicate id, so the call returns `True` even when
the add was silently skipped. -/
def chroma_add_tender (provider : String → EmbedOutcome) (dim : ℕ)
    (st : List (String × ChromaEntry)) (tender_id : String)
    (tender_data : TenderData) : List (String × ChromaEntry) × Bool :=
  let text := tender_data.title.getD "" ++ " " ++ tender_data.description.getD ""
  let emb := get_embedding_safe provider dim text
  (chroma_collection_add st tender_id { embedding := emb, doc := tender_data }, true)

/-- One row of a ChromaDB query result: id, distance and the stored
document text; `decodeDoc` below stands for `json.loads` on it. -/
structure ChromaRow where
  rid : String
  distance : ℚ
  document : String
deriving BEq

/-- One hit built by `_search_similar`. -/
structure ChromaHit where
  hid : String
  similarity_score : ℚ
  doc : TenderData
deriving BEq

/-- `ChromaDBStore._search_similar` (lines 163-183): a raising backend
query, or any document that fails to decode, makes the whole call return
`[]`; otherwise each row is mapped in order to a hit with
`similarity_score = 1.0 - min(distance, 1.0)`. -/
def chroma_search_similar (decodeDoc : String → Option TenderData)
    (queryRes : Except String (List ChromaRow)) : List ChromaHit :=
  match queryRes with
  | .error _ => []
  | .ok rows =>
    match rows.mapM (fun r =>
      (decodeDoc r.document).map (fun d =>
        ({ hid := r.rid, similarity_score := 1 - min r.distance 1, doc := d } : ChromaHit))) with
    | some hits => hits
    | none => []

/-- `ChromaDBStore._get_by_id` (lines 208-216): `none` on a raising
backend, an empty result id list, or a document decode failure. -/
def chroma_get_by_id (decodeDoc : String → Option TenderData)
    (getRes : Except String (Option String)) : Option TenderData :=
  match getRes with
  | .error _ => none
  | .ok none => none
  | .ok (some doc) =>
    match decodeDoc doc with
    | some d => some d
    | none => none

/-- `ChromaDBStore._fetch_all_records` (lines 191-200): `[]` on a raising
backend or any decode failure, else all stored records in backend order. -/
def chroma_fetch_all_records (decodeDoc : String → Option TenderData)
    (getRes : Except String (List (String × String))) : List (String × TenderData) :=
  match getRes with
  | .error _ => []
  | .ok rows =>
    match rows.mapM (fun r => (decodeDoc r.2).map (fun d => (r.1, d))) with
    | some recs => recs
    | none => []

/-! ## Cosmos DB store (src/vectorstore/cosmos_vector_store.py) -/

/-- `CosmosDBVectorStore._generate_embedding` (lines 57-68): a raising
embeddings call falls back to the all-zero vector of dimension 1536. -/
def cosmos_generate_embedding (provider : String → EmbedOutcome)
    (text : String) : List ℚ :=
  match provider text with
  | .ok v => v
  | .raises => List.replicate 1536 0

/-- Interpolation of the estimated value into the embedding text; integers
print without a fractional part as in Python (the proofs only exercise
integer and absent values). -/
def formatValue (q : ℚ) : String :=
  if q.den = 1 then toString q.num else toString q.num ++ "/" ++ toString q.den

/-- `CosmosDBVectorStore._create_tender_embedding_text` (lines 331-354). -/
def create_tender_embedding_text (td : TenderData) : String :=
  let parts :=
    (match td.title with | some t => ["Title: " ++ t] | none => []) ++
    (match td.description with | some d => ["Description: " ++ d] | none => []) ++
    (match td.category with
     | some x => if x.truthy then ["Categories: " ++ String.intercalate ", " x.toListNorm] else []
     | none => []) ++
    (match td.organization with | some o => ["Organization: " ++ o] | none => []) ++
    (match td.location with | some loc => ["Location: " ++ loc] | none => []) ++
    (match td.estimated_value with
     | some v => if v ≠ 0 then ["Estimated Value: " ++ formatValue v] else []
     | none => [])
  String.intercalate " | " parts

/-- `CosmosDBVectorStore._create_company_embedding_text` (lines 356-384). -/
def create_company_embedding_text (p : CompanyData) : String :=
  let parts :=
    (match p.name with | some n => ["Company: " ++ n] | none => []) ++
    (match p.description with | some d => ["Description: " ++ d] | none => []) ++
    (match p.industry with
     | some x => if x.truthy then ["Industries: " ++ String.intercalate ", " x.toListNorm] else []
     | none => []) ++
    (match p.services with
     | some x => if x.truthy then ["Services: " ++ String.intercalate ", " x.toListNorm] else []
     | none => []) ++
    (match p.expertise with
     | some x => if x.truthy then ["Expertise: " ++ String.intercalate ", " x.toListNorm] else []
     | none => []) ++
    (match p.location with | some loc => ["Location: " ++ loc] | none => []) ++
    (match p.size with | some s => ["Size: " ++ s] | none => [])
  String.intercalate " | " parts

/-- One document of a Cosmos container, with the fields the queries read;
`ts` models the `_ts` system timestamp. -/
structure CosmosItem where
  id : String
  typ : String
  data : TenderData
  embedding_text : String := ""
  embedding : List ℚ := []
  ts : ℕ := 0
deriving BEq

/-- `create_item` of the Cosmos client: creating an id that already exists
in the container raises a conflict error, leaving the container unchanged;
otherwise the document is appended. -/
def cosmos_create_item (store : List CosmosItem) (doc : CosmosItem) :
    Except String (List CosmosItem) :=
  if store.any (fun it => it.id == doc.id) then
    .error "Conflict (409): id already exists"
  else .ok (store ++ [doc])

/-- `CosmosDBVectorStore.add_tender` (lines 70-116). `freshId` stands for
`str(uuid.uuid4())`, used when the record carries no id; the denormalised
columns the source copies out of `tender_data` are kept inside `data`
here. The conflict exception of `create_item` is logged and re-raised. -/
def cosmos_add_tender (provider : String → EmbedOutcome) (freshId : String)
    (nowTs : ℕ) (store : List CosmosItem) (tender_data : TenderData) :
    Except String (List CosmosItem × String) :=
  let document_id := tender_data.tid.getD freshId
  let embedding_text := create_tender_embedding_text tender_data
  let embedding := cosmos_generate_embedding provider embedding_text
  let doc : CosmosItem := { id := document_id, typ := "tender", data := tender_data,
                            embedding_text := embedding_text, embedding := embedding,
                            ts := nowTs }
  match cosmos_create_item store doc with
  | .ok st2 => .ok (st2, document_id)
  | .error e => .error e

/-- One row of the `search_tenders` projection. -/
structure CosmosHit where
  hid : String
  data : TenderData
  similarity_score : ℚ
deriving BEq

/-- The SQL of `CosmosDBVectorStore.search_tenders` (lines 186-200)
evaluated over the container contents: rows with `type = 'tender'` ordered
by `VectorDistance(c.embedding, @queryVector)` — a plain `ORDER BY`, hence
SQL-default ascending — truncated by `OFFSET 0 LIMIT @limit`, and each
projected with the same `VectorDistance` value aliased as
`similarity_score`. The metric itself is the external parameter `dist`. -/
def cosmos_query_tenders (dist : List ℚ → List ℚ → ℚ) (qv : List ℚ)
    (store : List CosmosItem) (limit : ℕ) : List CosmosHit :=
  (((store.filter (fun it => it.typ == "tender")).mergeSort
      (fun a b => decide (dist a.embedding qv ≤ dist b.embedding qv))).take limit).map
    (fun it => { hid := it.id, data := it.data,
                 similarity_score := dist it.embedding qv })

/-- `CosmosDBVectorStore.search_tenders` (lines 166-219): the query
embedding is generated (zero vector on provider failure), then the SQL
query runs; a raising backend makes the whole call return `[]`. -/
def cosmos_search_tenders (dist : List ℚ → List ℚ → ℚ)
    (provider : String → EmbedOutcome) (query : String)
    (backend : Except String (List CosmosItem)) (limit : ℕ) : List CosmosHit :=
  let query_embedding := cosmos_generate_embedding provider query
  match backend with
  | .error _ => []
  | .ok store => cosmos_query_tenders dist query_embedding store limit

/-- `CosmosDBVectorStore.get_all_tenders` (lines 297-312): tenders ordered
by `_ts` descending, truncated to `limit`; `[]` on a raising backend. -/
def cosmos_get_all_tenders (backend : Except String (List CosmosItem))
    (limit : ℕ) : List CosmosItem :=
  match backend with
  | .error _ => []
  | .ok store =>
    ((store.filter (fun it => it.typ == "tender")).mergeSort
      (fun a b => decide (b.ts ≤ a.ts))).take limit

/-- Result of the point read `read_item` of the Cosmos client. -/
inductive ReadOutcome where
  | found (it : CosmosItem)
  | notFound
  | backendError (msg : String)

/-- `CosmosDBVectorStore.get_tender_by_id` (lines 275-284):
`CosmosResourceNotFoundError` and any other exception both become `none`. -/
def cosmos_get_tender_by_id (res : ReadOutcome) : Option CosmosItem :=
  match res with
  | .found it => some it
  | .notFound => none
  | .backendError _ => none

/-- Squared euclidean distance: a concrete instance of the external
`VectorDistance` metric, used to evaluate counterexamples. -/
def sqDist (u v : List ℚ) : ℚ :=
  ((u.zip v).map (fun p => (p.1 - p.2) ^ 2)).sum

/-! ## Concrete data used by counterexamples and witnesses -/

/-- A raw response consisting of a JSON object with an out-of-range score. -/
def exampleScoreResponse : String :=
  "\x7b\"match_score\": 1.5, \"reasoning\": \"x\"\x7d"

/-- What `json.loads` yields on `exampleScoreResponse`. -/
def exampleScoreObj : JsonObj :=
  [("match_score", .num (3/2)), ("reasoning", .str "x")]

/-- A decoder behaving like `json.loads` on the one response the
counterexample needs, failing elsewhere. -/
def exampleLoads : String → Option JsonObj := fun s =>
  if s = exampleScoreResponse then some exampleScoreObj else none

/-- A `datetime.fromisoformat` stand-in that understands one date. -/
def isoStub : String → Option Int := fun s =>
  if s = "2030-01-01" then some 2030 else none

/-- An analysis stand-in giving every tender the full score. -/
def genAll : List TenderDoc → List LocalRec :=
  fun ts => ts.map (fun t => { tender := t, match_score := 1 })

/-- Two stored tenders whose embeddings are at distances 0 and 1 from the
query vector `[0]`. -/
def cosmosStoreCE : List CosmosItem :=
  [{ id := "A", typ := "tender", data := {}, embedding := [0] },
   { id := "B", typ := "tender", data := {}, embedding := [1] }]

/-- First retrieved candidate (higher vector similarity). -/
def cand1 : Candidate := { cid := "T1", similarity_score := some (9/10) }

/-- Second retrieved candidate. -/
def cand2 : Candidate := { cid := "T2", similarity_score := some (8/10) }

/-- A vector search returning the two candidates when asked for two. -/
def searchCE : String → ℕ → List Candidate := fun _ limit =>
  if limit = 2 then [cand1, cand2] else []

/-- An analyzer scoring the first candidate low and the second high. -/
def analyzeCE : Candidate → AnalysisOutcome ℚ := fun c =>
  if c.cid = "T2" then .ok (9/10) else .ok (1/5)

/-- Five candidates for the partial-failure scenario. -/
def wCands : List Candidate :=
  [{ cid := "A", similarity_score := some 1 },
   { cid := "B", similarity_score := some (9/10) },
   { cid := "C", similarity_score := some (8/10) },
   { cid := "D", similarity_score := some (7/10) },
   { cid := "E", similarity_score := some (6/10) }]

/-- A vector search returning the five candidates when asked for ten. -/
def wSearch : String → ℕ → List Candidate := fun _ limit =>
  if limit = 10 then wCands else []

/-- An analyzer whose call raises on the third candidate and succeeds with
distinct descending scores above the floor on the other four. -/
def wAnalyze : Candidate → AnalysisOutcome ℚ := fun c =>
  if c.cid = "C" then .raises
  else if c.cid = "A" then .ok (9/10)
  else if c.cid = "B" then .ok (8/10)
  else if c.cid = "D" then .ok (7/10)
  else .ok (6/10)

/-- A tender record with a first description. -/
def tdFirst : TenderData := { tid := some "T1", description := some "first" }

/-- The same id with a different description. -/
def tdSecond : TenderData := { tid := some "T1", description := some "second" }

/-- An embedding provider that always succeeds with `[1]`. -/
def provOne : String → EmbedOutcome := fun _ => .ok [1]

/-- An embedding provider whose call always raises. -/
def provFail : String → EmbedOutcome := fun _ => .raises

/-- The Cosmos container after the first upsert of `tdFirst`. -/
def cosmosSt1 : List CosmosItem :=
  [{ id := "T1", typ := "tender", data := tdFirst,
     embedding_text := create_tender_embedding_text tdFirst,
     embedding := [1], ts := 0 }]

/-- A named company with one industry tag. -/
def acme : CompanyData := { name := some "Acme", industry := some (.l ["IT"]) }

/-! ## Claim theorems -/

/-- Claim C1, counterexample: on the very input named by the claim, the
local match-analysis response parser `parse_llm_response` returns a
degraded analysis whose `match_score` is `0.0`, not the claimed `0.5`. -/
theorem C1_counterexample :
    parse_llm_response (fun _ => none) "I cannot assess this" =
      some { match_score := 0, reasoning := .str "I cannot assess this" } ∧
    (0 : ℚ) ≠ 1/2 := by
  refine ⟨rfl, by norm_num⟩

/-- Claim C1, amended: when a raw response contains no parseable JSON
object, the Azure parser `parse_analysis_response` returns the degraded
analysis (`match_score = 0.5`, verbatim reasoning, empty strength and
challenge lists) and never an absent value; the local parser
`parse_llm_response` instead returns the heuristic line-scan score (0.0
unless a "match score:" line parses) with verbatim reasoning when the
response holds no brace pair, and returns an absent value when a
brace-delimited substring fails to decode. -/
theorem C1_amended (loads : String → Option JsonObj) (t u v : String)
    (ht : NoParseableJson loads t)
    (hu : (u.toList.contains lbrace && u.toList.contains rbrace) = false)
    (hv1 : v.toList.contains lbrace = true)
    (hv2 : v.toList.contains rbrace = true)
    (hv3 : loads (String.mk (pySlice v.toList (pyFind v.toList lbrace)
      (pyRFind v.toList rbrace + 1))) = none) :
    parse_analysis_response loads t = some (fallbackAnalysis t) ∧
    parse_llm_response loads u =
      some { match_score := scanMatchScore (pySplitOnChar u.toList nlChar),
             reasoning := .str u } ∧
    parse_llm_response loads v = none := by
  refine ⟨?_, ?_, ?_⟩
  · unfold parse_analysis_response
    rcases ht with h | h
    · rw [if_neg h]
    · by_cases hc : 0 ≤ pyFind t.toList lbrace ∧
        pyFind t.toList lbrace < pyRFind t.toList rbrace + 1
      · rw [if_pos hc, h]
      · rw [if_neg hc]
  · unfold parse_llm_response
    dsimp only
    rw [hu]
    rfl
  · unfold parse_llm_response
    dsimp only
    rw [hv1, hv2, if_pos (show (true && true) = true by rfl), hv3]

/-- Claim C1, witness: the amended statement applied at concrete inputs
with a decoder that always fails. -/
theorem C1_witness :
    parse_analysis_response (fun _ => none) "no json here" =
      some (fallbackAnalysis "no json here") ∧
    parse_llm_response (fun _ => none) "plain text" =
      some { match_score := scanMatchScore (pySplitOnChar "plain text".toList nlChar),
             reasoning := .str "plain text" } ∧
    parse_llm_response (fun _ => none) "\x7bbad\x7d" = none :=
  C1_amended (fun _ => none) "no json here" "plain text" "\x7bbad\x7d"
    (Or.inr rfl) rfl rfl rfl rfl

/-- Claim C2, counterexample: the Azure parser passes the LLM-reported
score `1.5` through unclamped: the returned dictionary still carries
`match_score = 1.5`, which is outside `[0, 1]`. -/
theorem C2_counterexample :
    parse_analysis_response exampleLoads exampleScoreResponse = some exampleScoreObj ∧
    exampleScoreObj.lookup "match_score" = some (.num (3/2)) ∧
    ¬ ((3 : ℚ)/2 ≤ 1) := by
  refine ⟨rfl, rfl, by norm_num⟩

/-- Claim C2, amended: the parser does not clamp: whenever the decoded
object carries both required keys it is returned unchanged, so the emitted
`match_score` equals the LLM-reported value even when that value lies
outside `[0, 1]`; only the fallback path manufactures a score (0.5). -/
theorem C2_amended (loads : String → Option JsonObj) (t : String) (a : JsonObj)
    (hbr : 0 ≤ pyFind t.toList lbrace ∧
      pyFind t.toList lbrace < pyRFind t.toList rbrace + 1)
    (hl : loads (String.mk (pySlice t.toList (pyFind t.toList lbrace)
      (pyRFind t.toList rbrace + 1))) = some a)
    (hm : (a.lookup "match_score").isSome = true)
    (hr : (a.lookup "reasoning").isSome = true) :
    parse_analysis_response loads t = some a := by
  unfold parse_analysis_response
  rw [if_pos hbr, hl]
  simp only [hm, hr, and_self, if_true]

/-- Claim C2, witness: the amended pass-through statement applied at the
concrete out-of-range response. -/
theorem C2_witness :
    parse_analysis_response exampleLoads exampleScoreResponse = some exampleScoreObj := by
  refine C2_amended exampleLoads exampleScoreResponse exampleScoreObj ⟨?_, ?_⟩ rfl rfl rfl
  · decide
  · decide

/-- Claim C3, counterexample: with `filter_expired = true` a tender whose
deadline field is absent is excluded from the request's result even though
the analyzer would score it 1 (the claim says such a tender is kept), and a
tender with a malformed deadline makes the whole request raise a
`ValueError` (the claim says a malformed deadline never makes it fail). -/
theorem C3_counterexample :
    get_recommendations isoStub 2026 [[]] [{ tid := some "T1" }] genAll
      0 10 "Match Score" true = .ok [] ∧
    get_recommendations isoStub 2026 [[]]
      [{ tid := some "T2", deadline := some "not-a-date" }] genAll
      0 10 "Match Score" true = .error "ValueError: invalid isoformat string" := by
  constructor
  · simp [get_recommendations, filter_expired_tenders, keepTender, genAll, sortRecs,
      Bind.bind, Except.bind, pure, Except.pure]
  · rfl

/-- The only error the per-tender deadline test can raise. -/
theorem keepTender_error_eq (fromiso : String → Option Int) (now : Int)
    (t : TenderDoc) (e : String) (h : keepTender fromiso now t = .error e) :
    e = "ValueError: invalid isoformat string" := by
  rcases hd : t.deadline with _ | d
  · simp [keepTender, hd] at h
  · by_cases he : d.isEmpty
    · simp [keepTender, hd, he] at h
    · rcases hf : fromiso d with _ | ts
      · simp [keepTender, hd, he, hf] at h
        exact h.symm
      · simp [keepTender, hd, he, hf] at h

/-- Claim C3, amended: with `filter_expired = true` the request keeps
exactly the tenders whose deadline is present, non-empty, parseable and
strictly in the future — in particular a tender with an absent (or empty)
deadline is excluded, not kept — and when any tender carries a present,
non-empty but unparsable deadline the whole filter step (hence the
request) raises a `ValueError` instead of treating that tender as not
expired. -/
theorem C3_amended (fromiso : String → Option Int) (now : Int)
    (tenders tenders2 : List TenderDoc)
    (hall : ∀ t ∈ tenders, ∀ d, t.deadline = some d → d.isEmpty = false →
      (fromiso d).isSome = true)
    (hbad : ∃ t ∈ tenders2, ∃ d, t.deadline = some d ∧ d.isEmpty = false ∧
      fromiso d = none) :
    filter_expired_tenders fromiso now tenders =
      .ok (tenders.filter (keepPred fromiso now)) ∧
    filter_expired_tenders fromiso now tenders2 =
      .error "ValueError: invalid isoformat string" := by
  constructor
  · clear hbad
    induction tenders with
    | nil => rfl
    | cons t ts ih =>
      have hts := ih (fun a ha d hd hne => hall a (List.mem_cons_of_mem t ha) d hd hne)
      have ht : keepTender fromiso now t = .ok (keepPred fromiso now t) := by
        rcases hd : t.deadline with _ | d
        · simp [keepTender, keepPred, hd]
        · by_cases he : d.isEmpty
          · simp [keepTender, keepPred, hd, he]
          · rcases hf : fromiso d with _ | ts2
            · have := hall t (List.mem_cons_self t ts) d hd (by simpa using he)
              rw [hf] at this; cases this
            · simp [keepTender, keepPred, hd, he, hf]
      show (do
        let keep ← keepTender fromiso now t
        let rest ← filter_expired_tenders fromiso now ts
        return (if keep then t :: rest else rest)) = _
      rw [ht, hts]
      by_cases hk : keepPred fromiso now t
      · rw [List.filter_cons, if_pos hk, hk]; rfl
      · rw [Bool.not_eq_true] at hk
        rw [List.filter_cons, if_neg (by simp [hk]), hk]; rfl
  · clear hall
    induction tenders2 with
    | nil => rcases hbad with ⟨t, ht, _⟩; cases ht
    | cons t ts ih =>
      show (do
        let keep ← keepTender fromiso now t
        let rest ← filter_expired_tenders fromiso now ts
        return (if keep then t :: rest else rest)) = _
      rcases hbad with ⟨b, hb, d, hbd, hbe, hbn⟩
      rcases List.mem_cons.mp hb with rfl | hbts
      · have hkt : keepTender fromiso now b = .error "ValueError: invalid isoformat string" := by
          simp [keepTender, hbd, hbe, hbn]
        rw [hkt]; rfl
      · rcases hk : keepTender fromiso now t with e | keep
        · have he2 := keepTender_error_eq fromiso now t e hk
          rw [he2]; rfl
        · have hts := ih ⟨b, hbts, d, hbd, hbe, hbn⟩
          rw [hts]; rfl

/-- Claim C3, witness: the amended statement at a store with one future
tender, one deadline-less tender, and one malformed-deadline tender. -/
theorem C3_witness :
    filter_expired_tenders isoStub 2026
        [{ tid := some "G", deadline := some "2030-01-01" }, { tid := some "N" }] =
      .ok ([{ tid := some "G", deadline := some "2030-01-01" },
            ({ tid := some "N" } : TenderDoc)].filter (keepPred isoStub 2026)) ∧
    filter_expired_tenders isoStub 2026
        [{ tid := some "B", deadline := some "nope" }] =
      .error "ValueError: invalid isoformat string" := by
  refine C3_amended isoStub 2026 _ _ ?_ ?_
  · intro t ht d hd hne
    rcases List.mem_cons.mp ht with rfl | ht2
    · cases hd; rfl
    · rcases List.mem_cons.mp ht2 with rfl | ht3
      · cases hd
      · cases ht3
  · exact ⟨_, List.mem_cons_self _ _, "nope", rfl, rfl, rfl⟩

/-- When every document decodes, the hits of `_search_similar` carry the
scores `1 - min(distance, 1)` of the rows, in row order. -/
theorem chroma_hits_scores (decodeDoc : String → Option TenderData)
    (rows : List ChromaRow) (hits : List ChromaHit)
    (h : rows.mapM (fun r =>
      (decodeDoc r.document).map (fun d =>
        ({ hid := r.rid, similarity_score := 1 - min r.distance 1,
           doc := d } : ChromaHit))) = some hits) :
    hits.map (fun h2 => h2.similarity_score) =
      rows.map (fun r => 1 - min r.distance 1) := by
  induction rows generalizing hits with
  | nil =>
    simp only [List.mapM_nil, Option.pure_def, Option.some.injEq] at h
    rw [← h]; rfl
  | cons r rs ih =>
    rw [List.mapM_cons] at h
    rcases hd : decodeDoc r.document with _ | d
    · rw [hd] at h; cases h
    · rw [hd] at h
      rcases hrest : rs.mapM (fun r =>
        (decodeDoc r.document).map (fun d =>
          ({ hid := r.rid, similarity_score := 1 - min r.distance 1,
             doc := d } : ChromaHit))) with _ | rest
      · rw [hrest] at h; cases h
      · rw [hrest] at h
        cases h
        simpa using ih rest hrest

/-- The similarity scores emitted by the Cosmos tender search are in
non-decreasing order: the SQL orders ascending by the very expression that
is projected out as `similarity_score`. -/
theorem cosmos_scores_ascending (dist : List ℚ → List ℚ → ℚ) (qv : List ℚ)
    (store : List CosmosItem) (limit : ℕ) :
    (cosmos_query_tenders dist qv store limit).Pairwise
      (fun a b => a.similarity_score ≤ b.similarity_score) := by
  unfold cosmos_query_tenders
  have hs : ((store.filter (fun it => it.typ == "tender")).mergeSort
      (fun a b => decide (dist a.embedding qv ≤ dist b.embedding qv))).Pairwise
      (fun a b => decide (dist a.embedding qv ≤ dist b.embedding qv) = true) := by
    apply List.sorted_mergeSort
    · intro a b c hab hbc
      simp only [decide_eq_true_eq] at hab hbc ⊢
      exact le_trans hab hbc
    · intro a b
      simp only [Bool.or_eq_true, decide_eq_true_eq]
      exact le_total _ _
  have ht := hs.sublist (List.take_sublist limit _)
  refine List.Pairwise.map _ ?_ ht
  intro a b hab
  simpa using hab

/-- Claim C4, counterexample: for the query vector `[0]` over a store with
embeddings `[0]` and `[1]`, the Cosmos search returns similarity scores
`[0, 1]` — an increasing sequence, so the results are not in non-increasing
score order, and the identical vector scores `0.0` rather than `1.0`. -/
theorem C4_counterexample :
    (cosmos_search_tenders sqDist (fun _ => .ok [0]) "q" (.ok cosmosStoreCE) 10).map
      (fun h2 => h2.similarity_score) = [0, 1] ∧
    ¬ ((1 : ℚ) ≤ 0) := by
  constructor
  · show (cosmos_query_tenders sqDist [0] cosmosStoreCE 10).map _ = _
    unfold cosmos_query_tenders
    have hf : cosmosStoreCE.filter (fun it => it.typ == "tender") = cosmosStoreCE := rfl
    rw [hf]
    have hms : cosmosStoreCE.mergeSort
        (fun a b => decide (sqDist a.embedding [0] ≤ sqDist b.embedding [0])) =
        cosmosStoreCE := by
      apply List.mergeSort_of_sorted
      simp [cosmosStoreCE, List.pairwise_cons, sqDist]
    rw [hms]
    simp [cosmosStoreCE, sqDist]
  · norm_num

/-- Claim C4, amended: the ChromaDB path behaves as the claim says —
whenever the client returns rows in non-decreasing distance order with
non-negative distances, the emitted hits carry similarity scores inside
`[0, 1]` (computed as `1 - min(distance, 1)`) in non-increasing order —
while the Cosmos path emits the raw `VectorDistance` value, unnormalized,
and its plain ascending `ORDER BY` hands the scores back in non-decreasing
order. -/
theorem C4_amended (decodeDoc : String → Option TenderData) (rows : List ChromaRow)
    (hsort : rows.Pairwise (fun a b => a.distance ≤ b.distance))
    (hpos : ∀ r ∈ rows, 0 ≤ r.distance)
    (dist : List ℚ → List ℚ → ℚ) (qv : List ℚ) (store : List CosmosItem) (limit : ℕ) :
    ((chroma_search_similar decodeDoc (.ok rows)).Pairwise
        (fun a b => b.similarity_score ≤ a.similarity_score) ∧
      ∀ h2 ∈ chroma_search_similar decodeDoc (.ok rows),
        0 ≤ h2.similarity_score ∧ h2.similarity_score ≤ 1) ∧
    (cosmos_query_tenders dist qv store limit).Pairwise
      (fun a b => a.similarity_score ≤ b.similarity_score) := by
  refine ⟨?_, cosmos_scores_ascending dist qv store limit⟩
  unfold chroma_search_similar
  dsimp only
  cases hm : rows.mapM (fun r =>
    (decodeDoc r.document).map (fun d =>
      ({ hid := r.rid, similarity_score := 1 - min r.distance 1,
         doc := d } : ChromaHit))) with
  | none => exact ⟨List.Pairwise.nil, by intro h2 hh; cases hh⟩
  | some hits =>
    have hscores := chroma_hits_scores decodeDoc rows hits hm
    constructor
    · have hp : (rows.map (fun r => 1 - min r.distance 1)).Pairwise
          (fun x y => y ≤ x) := by
        refine List.Pairwise.map _ ?_ hsort
        intro a b hab
        have : min a.distance 1 ≤ min b.distance 1 := min_le_min hab le_rfl
        linarith
      rw [← hscores] at hp
      exact (List.pairwise_map).mp hp
    · intro h2 hh
      have : h2.similarity_score ∈ hits.map (fun h3 => h3.similarity_score) :=
        List.mem_map_of_mem _ hh
      rw [hscores] at this
      rcases List.mem_map.mp this with ⟨r, hr, hv⟩
      have h0 : 0 ≤ r.distance := hpos r hr
      constructor
      · rw [← hv]
        have : min r.distance 1 ≤ 1 := min_le_right _ _
        linarith
      · rw [← hv]
        have : 0 ≤ min r.distance 1 := le_min h0 (by norm_num)
        linarith

/-- Claim C4, witness: the amended statement at a two-row Chroma result
with ascending distances and the concrete Cosmos store. -/
theorem C4_witness :
    ((chroma_search_similar (fun _ => some {})
        (.ok [{ rid := "r1", distance := 1/4, document := "d1" },
              { rid := "r2", distance := 2, document := "d2" }])).Pairwise
        (fun a b => b.similarity_score ≤ a.similarity_score) ∧
      ∀ h2 ∈ chroma_search_similar (fun _ => some {})
        (.ok [{ rid := "r1", distance := 1/4, document := "d1" },
              { rid := "r2", distance := 2, document := "d2" }]),
        0 ≤ h2.similarity_score ∧ h2.similarity_score ≤ 1) ∧
    (cosmos_query_tenders sqDist [0] cosmosStoreCE 2).Pairwise
      (fun a b => a.similarity_score ≤ b.similarity_score) :=
  C4_amended (fun _ => some {})
    [{ rid := "r1", distance := 1/4, document := "d1" },
     { rid := "r2", distance := 2, document := "d2" }]
    (by simp [List.pairwise_cons]; norm_num)
    (by intro r hr; rcases List.mem_cons.mp hr with rfl | hr2
        · norm_num
        · rcases List.mem_cons.mp hr2 with rfl | hr3
          · norm_num
          · cases hr3)
    sqDist [0] cosmosStoreCE 2

/-- Claim C5, counterexample: with `maxResults = 1` and two retrieved
candidates of which only the second scores above the floor, the source
analyzes only the first retrieved candidate and returns nothing, while the
claim's algorithm (`recommendTendersSpec`) analyzes every retrieved
candidate and returns the second. -/
theorem C5_counterexample :
    recommend_tenders_for_company searchCE analyzeCE {} 1 = [] ∧
    recommendTendersSpec searchCE analyzeCE {} 1 =
      [{ tender := cand2, match_score := 9/10, vector_similarity := 8/10 }] := by
  have h1 : analyzeCE { cid := "T1", similarity_score := some (9/10) } = .ok (1/5) := rfl
  have h2 : analyzeCE { cid := "T2", similarity_score := some (4/5) } = .ok (9/10) := rfl
  constructor
  · norm_num [recommend_tenders_for_company, searchCE, h1, h2,
      create_company_search_query, cand1, cand2, List.filterMap_cons]
  · norm_num [recommendTendersSpec, searchCE, h1, h2,
      create_company_search_query, cand1, cand2, List.filterMap_cons]

/-- Claim C5, amended: `recommend_tenders_for_company` retrieves
`maxResults * 2` candidates but analyzes only the first `maxResults` of
them; among those, candidates whose analysis raises or is absent, or whose
score is at or below 0.3, are discarded; the result is a permutation of
the surviving entries sorted non-increasingly by match score (stably, so
tied scores keep retrieval order), and carries at most `maxResults`
entries. -/
theorem C5_amended (search : String → ℕ → List Candidate)
    (analyze : Candidate → AnalysisOutcome ℚ) (p : CompanyData) (maxResults : ℕ) :
    (recommend_tenders_for_company search analyze p maxResults).Pairwise
      (fun a b => b.match_score ≤ a.match_score) ∧
    (recommend_tenders_for_company search analyze p maxResults).Perm
      (((search (create_company_search_query p) (maxResults * 2)).take maxResults).filterMap
        (fun tender => match analyze tender with
          | .ok s =>
            if s > 3/10 then
              some { tender := tender, match_score := s,
                     vector_similarity := tender.similarity_score.getD 0 }
            else none
          | _ => none)) ∧
    (recommend_tenders_for_company search analyze p maxResults).length ≤ maxResults := by
  unfold recommend_tenders_for_company
  dsimp only
  by_cases he : (search (create_company_search_query p) (maxResults * 2)).isEmpty
  · rw [if_pos he]
    rw [List.isEmpty_iff] at he
    rw [he]
    simp
  · rw [if_neg he]
    refine ⟨?_, ?_, ?_⟩
    · have hs : ((((search (create_company_search_query p) (maxResults * 2)).take
          maxResults).filterMap (fun tender => match analyze tender with
            | .ok s =>
              if s > 3/10 then
                some ({ tender := tender, match_score := s,
                        vector_similarity := tender.similarity_score.getD 0 } : TenderRec)
              else none
            | _ => none)).mergeSort
          (fun a b : TenderRec => decide (b.match_score ≤ a.match_score))).Pairwise
          (fun a b : TenderRec => decide (b.match_score ≤ a.match_score) = true) := by
        apply List.sorted_mergeSort
        · intro a b c hab hbc
          simp only [decide_eq_true_eq] at hab hbc ⊢
          exact le_trans hbc hab
        · intro a b
          simp only [Bool.or_eq_true, decide_eq_true_eq]
          exact le_total _ _
      exact hs.imp (fun h => by simpa using h)
    · exact List.mergeSort_perm _ _
    · rw [List.length_mergeSort]
      exact le_trans (List.length_filterMap_le _ _)
        (by rw [List.length_take]; exact min_le_left _ _)

/-- Claim C6: in `recommend_tenders_for_company`, a candidate whose
analysis raises or returns an absent result is skipped and the results of
all remaining analyzed candidates are still returned, sorted
non-increasingly by match score; the whole call never raises (its
embedding is a total function into a plain list, with the raising and
absent analysis outcomes handled explicitly). The 0.3 relevance floor is
factored out by the hypothesis that every successful analysis scores
above it. -/
theorem C6_partial_failure (search : String → ℕ → List Candidate)
    (analyze : Candidate → AnalysisOutcome ℚ) (p : CompanyData) (maxRecs : ℕ)
    (hthr : ∀ c ∈ (search (create_company_search_query p) (maxRecs * 2)).take maxRecs,
      match analyze c with
      | .ok s => s > 3/10
      | _ => True) :
    (recommend_tenders_for_company search analyze p maxRecs).Perm
      (((search (create_company_search_query p) (maxRecs * 2)).take maxRecs).filterMap
        (fun c => match analyze c with
          | .ok s => some { tender := c, match_score := s,
                            vector_similarity := c.similarity_score.getD 0 }
          | _ => none)) ∧
    (recommend_tenders_for_company search analyze p maxRecs).Pairwise
      (fun a b => b.match_score ≤ a.match_score) := by
  have hcongr : (((search (create_company_search_query p) (maxRecs * 2)).take
      maxRecs).filterMap (fun tender => match analyze tender with
        | .ok s =>
          if s > 3/10 then
            some ({ tender := tender, match_score := s,
                    vector_similarity := tender.similarity_score.getD 0 } : TenderRec)
          else none
        | _ => none)) =
      (((search (create_company_search_query p) (maxRecs * 2)).take maxRecs).filterMap
        (fun c => match analyze c with
          | .ok s => some { tender := c, match_score := s,
                            vector_similarity := c.similarity_score.getD 0 }
          | _ => none)) := by
    apply List.filterMap_congr
    intro c hc
    have hct := hthr c hc
    cases ha : analyze c with
    | ok s =>
      rw [ha] at hct
      have hct2 : s > 3/10 := hct
      dsimp only
      rw [if_pos hct2]
    | raises => rfl
    | absent => rfl
  constructor
  · unfold recommend_tenders_for_company
    dsimp only
    by_cases he : (search (create_company_search_query p) (maxRecs * 2)).isEmpty
    · rw [if_pos he]
      rw [List.isEmpty_iff] at he
      rw [he]
      simp
    · rw [if_neg he, hcongr]
      exact List.mergeSort_perm _ _
  · unfold recommend_tenders_for_company
    dsimp only
    by_cases he : (search (create_company_search_query p) (maxRecs * 2)).isEmpty
    · rw [if_pos he]
      exact List.Pairwise.nil
    · rw [if_neg he]
      have hs : ((((search (create_company_search_query p) (maxRecs * 2)).take
          maxRecs).filterMap (fun tender => match analyze tender with
            | .ok s =>
              if s > 3/10 then
                some ({ tender := tender, match_score := s,
                        vector_similarity := tender.similarity_score.getD 0 } : TenderRec)
              else none
            | _ => none)).mergeSort
          (fun a b : TenderRec => decide (b.match_score ≤ a.match_score))).Pairwise
          (fun a b : TenderRec => decide (b.match_score ≤ a.match_score) = true) := by
        apply List.sorted_mergeSort
        · intro a b c hab hbc
          simp only [decide_eq_true_eq] at hab hbc ⊢
          exact le_trans hbc hab
        · intro a b
          simp only [Bool.or_eq_true, decide_eq_true_eq]
          exact le_total _ _
      exact hs.imp (fun h => by simpa using h)

/-- Claim C6, witness: five candidates of which the third's analysis
raises; the other four are all returned, in non-increasing score order. -/
theorem C6_witness :
    (recommend_tenders_for_company wSearch wAnalyze {} 5).Perm
      ((wCands.take 5).filterMap
        (fun c => match wAnalyze c with
          | .ok s => some { tender := c, match_score := s,
                            vector_similarity := c.similarity_score.getD 0 }
          | _ => none)) ∧
    (recommend_tenders_for_company wSearch wAnalyze {} 5).Pairwise
      (fun a b => b.match_score ≤ a.match_score) := by
  refine C6_partial_failure wSearch wAnalyze {} 5 ?_
  intro c hc
  rw [show (wSearch (create_company_search_query {}) (5 * 2)).take 5 = wCands from rfl] at hc
  have hA : wAnalyze { cid := "A", similarity_score := some 1 } = .ok (9/10) := rfl
  have hB : wAnalyze { cid := "B", similarity_score := some (9/10) } = .ok (8/10) := rfl
  have hC : wAnalyze { cid := "C", similarity_score := some (8/10) } = .raises := rfl
  have hD : wAnalyze { cid := "D", similarity_score := some (7/10) } = .ok (7/10) := rfl
  have hE : wAnalyze { cid := "E", similarity_score := some (6/10) } = .ok (6/10) := rfl
  fin_cases hc
  · rw [hA]; norm_num
  · rw [hB]; norm_num
  · rw [hC]; exact trivial
  · rw [hD]; norm_num
  · rw [hE]; norm_num

/-- Claim C7, counterexample: upserting id `T1` twice with different
descriptions leaves the Chroma store holding the FIRST description and its
original embedding — the second call reports success (`True`) but the
record was silently skipped, not replaced — and makes the Cosmos store
raise a conflict; neither backend ends up holding the second description. -/
theorem C7_counterexample :
    chroma_add_tender provOne 1 [] "T1" tdFirst =
      ([("T1", { embedding := [1], doc := tdFirst })], true) ∧
    chroma_add_tender provOne 1 [("T1", { embedding := [1], doc := tdFirst })]
        "T1" tdSecond =
      ([("T1", { embedding := [1], doc := tdFirst })], true) ∧
    cosmos_add_tender provOne "F" 0 [] tdFirst = .ok (cosmosSt1, "T1") ∧
    cosmos_add_tender provOne "F" 1 cosmosSt1 tdSecond =
      .error "Conflict (409): id already exists" ∧
    tdFirst.description ≠ tdSecond.description := by
  refine ⟨rfl, rfl, rfl, rfl, by decide⟩

/-- Claim C7, amended: re-upserting an existing id never replaces the
stored record: the Chroma client silently skips the duplicate-id add, so
`add_tender` returns the unchanged store while still reporting `True`,
and the Cosmos `add_tender` re-raises the conflict of `create_item`,
leaving its container unchanged; the record (and embedding) stored under
the id stays the first one and the second description is never stored. -/
theorem C7_amended (provider : String → EmbedOutcome) (dim : ℕ)
    (st : List (String × ChromaEntry)) (id : String) (td : TenderData)
    (h : (st.lookup id).isSome = true)
    (store : List CosmosItem) (freshId : String) (nowTs : ℕ) (td2 : TenderData)
    (h2 : store.any (fun it => it.id == td2.tid.getD freshId) = true) :
    chroma_add_tender provider dim st id td = (st, true) ∧
    cosmos_add_tender provider freshId nowTs store td2 =
      .error "Conflict (409): id already exists" := by
  constructor
  · unfold chroma_add_tender chroma_collection_add
    dsimp only
    rw [if_pos h]
  · unfold cosmos_add_tender cosmos_create_item
    dsimp only
    rw [if_pos h2]

/-- Claim C7, witness: the amended statement applied to stores already
holding id `T1`. -/
theorem C7_witness :
    chroma_add_tender provOne 1 [("T1", { embedding := [1], doc := tdFirst })]
        "T1" tdSecond =
      ([("T1", { embedding := [1], doc := tdFirst })], true) ∧
    cosmos_add_tender provOne "F" 1 cosmosSt1 tdSecond =
      .error "Conflict (409): id already exists" :=
  C7_amended provOne 1 [("T1", { embedding := [1], doc := tdFirst })] "T1"
    tdSecond rfl cosmosSt1 "F" 1 tdSecond rfl

/-- Claim C8, counterexample: when the embedding call fails, both stores
silently insert the record with an all-zero embedding vector and report
the upsert as successful (`True` / the new id) — no retry, no surfaced
write failure. -/
theorem C8_counterexample :
    chroma_add_tender provFail 3 [] "T1" tdFirst =
      ([("T1", { embedding := [0, 0, 0], doc := tdFirst })], true) ∧
    cosmos_add_tender provFail "F" 0 [] tdFirst =
      .ok ([{ id := "T1", typ := "tender", data := tdFirst,
              embedding_text := create_tender_embedding_text tdFirst,
              embedding := List.replicate 1536 0, ts := 0 }], "T1") := by
  refine ⟨rfl, rfl⟩

/-- Claim C8, amended: on embedding failure neither store retries or
surfaces a write failure: the Chroma store inserts the all-zero vector of
the configured dimension and returns `True`, and the Cosmos store inserts
the all-zero vector of length 1536 and returns the new id — both report
success. -/
theorem C8_amended (dim : ℕ) (st : List (String × ChromaEntry)) (id : String)
    (td td2 : TenderData) (provider : String → EmbedOutcome)
    (hp : ∀ t, provider t = .raises)
    (h1 : (st.lookup id).isSome = false)
    (store : List CosmosItem) (freshId : String) (nowTs : ℕ)
    (h2 : store.any (fun it => it.id == td2.tid.getD freshId) = false) :
    chroma_add_tender provider dim st id td =
      (st ++ [(id, { embedding := List.replicate dim 0, doc := td })], true) ∧
    cosmos_add_tender provider freshId nowTs store td2 =
      .ok (store ++ [{ id := td2.tid.getD freshId, typ := "tender", data := td2,
                       embedding_text := create_tender_embedding_text td2,
                       embedding := List.replicate 1536 0, ts := nowTs }],
           td2.tid.getD freshId) := by
  constructor
  · unfold chroma_add_tender get_embedding_safe get_embeddings chroma_collection_add
    simp [hp, h1]
  · unfold cosmos_add_tender cosmos_generate_embedding cosmos_create_item
    dsimp only
    rw [hp]
    dsimp only
    rw [if_neg (by simp [h2])]

/-- Claim C8, witness: the amended statement applied to empty stores and
the always-failing provider. -/
theorem C8_witness :
    chroma_add_tender provFail 3 [] "T1" tdFirst =
      ([] ++ [("T1", { embedding := List.replicate 3 0, doc := tdFirst })], true) ∧
    cosmos_add_tender provFail "F" 0 [] tdFirst =
      .ok ([] ++ [{ id := tdFirst.tid.getD "F", typ := "tender", data := tdFirst,
                    embedding_text := create_tender_embedding_text tdFirst,
                    embedding := List.replicate 1536 0, ts := 0 }],
           tdFirst.tid.getD "F") :=
  C8_amended 3 [] "T1" tdFirst tdFirst provFail (fun _ => rfl) rfl [] "F" 0 rfl

/-- Claim C9, counterexample: for a company with a name and one industry
tag, the upsert-time embedding text and the query-time search text are
different strings. -/
theorem C9_counterexample :
    create_company_embedding_text acme = "Company: Acme | Industries: IT" ∧
    create_company_search_query acme = "IT" ∧
    ("Company: Acme | Industries: IT" : String) ≠ "IT" := by
  refine ⟨rfl, rfl, by decide⟩

/-- Claim C9, amended: the two text builders are not the same function:
the query text ignores the record's name, description and size entirely
(it is the unlabeled space-join of industry, services, expertise and
location), while the embedding text carries labeled name and description
segments, so the two disagree on named records such as the
counterexample's. -/
theorem C9_amended (p : CompanyData) (n d s : Option String) :
    create_company_search_query { p with name := n, description := d, size := s } =
      create_company_search_query p ∧
    create_company_embedding_text { acme with name := some "Beta" } ≠
      create_company_embedding_text acme := by
  exact ⟨rfl, by decide⟩

/-- Claim C10: every read operation of both backends converts a raising
database client into an empty list (similarity search, list-all) or an
absent value (point lookup) and never propagates the failure; the Cosmos
not-found outcome likewise becomes an absent value. -/
theorem C10_reads_total (decodeDoc : String → Option TenderData) (e msg : String)
    (dist : List ℚ → List ℚ → ℚ) (provider : String → EmbedOutcome)
    (q : String) (limit : ℕ) :
    chroma_search_similar decodeDoc (.error e) = [] ∧
    chroma_get_by_id decodeDoc (.error e) = none ∧
    chroma_fetch_all_records decodeDoc (.error e) = [] ∧
    cosmos_search_tenders dist provider q (.error e) limit = [] ∧
    cosmos_get_all_tenders (.error e) limit = [] ∧
    cosmos_get_tender_by_id (.backendError msg) = none ∧
    cosmos_get_tender_by_id .notFound = none :=
  ⟨rfl, rfl, rfl, rfl, rfl, rfl, rfl⟩

end TenderEngine
